import Mathlib

/-!
Verification of the RDS idle-shutdown Lambda.

Shallow embedding of `lambda.py`: the idle-decision policy
(`get_effective_idle_minutes`, `is_instance_idle`), the sweep
(`handle_check`) and the on-demand start entry point (`handle_start`).

External collaborators (SSM, RDS, CloudWatch) are modelled as fields of an
`Env` record; the control flow, string messages and decision logic follow
the Python source line by line.  Calls to collaborators that the claims
observe (SSM parameter fetch, metric fetch, stop/start actions) are
recorded as an `Event` trace.
-/

namespace RdsIdleShutdown

/-- Python `str.lower()` (kernel-computable form of `String.toLower`). -/
def strLower (s : String) : String :=
  String.mk (s.data.map Char.toLower)

/-- Python `str.endswith(pat)` (kernel-computable form of `String.endsWith`). -/
def strEndsWith (s pat : String) : Bool :=
  s.data.reverse.take pat.data.length == pat.data.reverse

/-- Python `str.startswith(pat)` (kernel-computable form of `String.startsWith`). -/
def strStartsWith (s pat : String) : Bool :=
  s.data.take pat.data.length == pat.data

/-- Drop the first `n` characters (kernel-computable form of `String.drop`). -/
def strDrop (s : String) (n : Nat) : String :=
  String.mk (s.data.drop n)

/-- One tag as returned by `rds.list_tags_for_resource` (a `{Key, Value}` pair). -/
structure Tag where
  key : String
  value : String
  deriving DecidableEq, Repr

/-- Python `int(...)` digit-run parser: digits with single underscores
allowed between digits (`int("1_0") = 10`), rejecting leading/trailing or
doubled underscores.  `acc` is the value of the digits consumed so far. -/
def pyDigitsAux (acc : Nat) : List Char → Option Nat
  | [] => some acc
  | '_' :: c :: rest =>
      if c.isDigit then pyDigitsAux (10 * acc + (c.toNat - 48)) rest else none
  | ['_'] => none
  | c :: rest =>
      if c.isDigit then pyDigitsAux (10 * acc + (c.toNat - 48)) rest else none

/-- A non-empty digit run (first char must be a digit). -/
def pyDigits : List Char → Option Nat
  | [] => none
  | c :: rest => if c.isDigit then pyDigitsAux (c.toNat - 48) rest else none

/-- Drop leading whitespace characters. -/
def dropSpacesLeft : List Char → List Char
  | [] => []
  | c :: rest => if c.isWhitespace then dropSpacesLeft rest else c :: rest

/-- Strip whitespace from both ends, as Python `int` does to its argument. -/
def stripSpaces (cs : List Char) : List Char :=
  (dropSpacesLeft (dropSpacesLeft cs).reverse).reverse

/-- Python `int(s)` for a decimal string: strip surrounding whitespace,
optional sign, digits; `none` models a raised `ValueError`. -/
def pyInt (s : String) : Option Int :=
  match stripSpaces s.data with
  | '-' :: rest => (pyDigits rest).map (fun n => -(n : Int))
  | '+' :: rest => (pyDigits rest).map (fun n => (n : Int))
  | cs => (pyDigits cs).map (fun n => (n : Int))

/-- Model of `_get_tag_value` (lambda.py lines 75-79): first tag whose `Key` equals
`key`, else `None`. -/
def get_tag_value : List Tag → String → Option String
  | [], _ => none
  | t :: rest, key => if t.key = key then some t.value else get_tag_value rest key

/-- Model of `get_effective_idle_minutes` (lambda.py lines 81-90), as a function of
the resource's tag list: if the `IdleMinutes` tag is present and truthy
(non-empty) and `int(...)` parses it, return the parsed value; any parse
failure is swallowed by the `except` and the default is returned. -/
def get_effective_idle_minutes (tags : List Tag) (default_minutes : Int) : Int :=
  match get_tag_value tags "IdleMinutes" with
  | none => default_minutes
  | some override =>
      if override = "" then default_minutes
      else
        match pyInt override with
        | some n => n
        | none => default_minutes

/-! ## Metric signals (`fetch_idle_signals_for_instance`, lines 95-141) -/

/-- One entry of `resp["MetricDataResults"]`: the query id and the returned
datapoint values. -/
structure MetricResult where
  id : String
  values : List ℚ
  deriving DecidableEq, Repr

/-- The summary dict built by `fetch_idle_signals_for_instance`, restricted
to the four keys it initialises (`m_conn_max`, `m_read_sum`, `m_write_sum`,
`m_cpu_max`); all four default to `0.0`. -/
structure Signals where
  conn_max : ℚ
  read_sum : ℚ
  write_sum : ℚ
  cpu_max : ℚ
  deriving DecidableEq, Repr

/-- The characters after the first underscore: `s.split("_", 1)[1]`. -/
def afterFirstUnderscore : List Char → List Char
  | [] => []
  | '_' :: rest => rest
  | _ :: rest => afterFirstUnderscore rest

/-- Python `max(values)` on a non-empty list (`[]` is never passed: guarded
by `if r["Values"]`). -/
def maxList : List ℚ → ℚ
  | [] => 0
  | x :: xs => xs.foldl max x

/-- Write `v` at dict key `k`; keys other than the four initialised ones
are invisible to `is_instance_idle` (it reads with `.get(..., 0.0)`). -/
def setKey (out : Signals) (k : String) (v : ℚ) : Signals :=
  if k = "m_conn_max" then { out with conn_max := v }
  else if k = "m_read_sum" then { out with read_sum := v }
  else if k = "m_write_sum" then { out with write_sum := v }
  else if k = "m_cpu_max" then { out with cpu_max := v }
  else out

/-- Loop body of lines 135-140: skip empty `Values`; `max` for the two
`*_max` queries, `sum` otherwise; the dict key is `"m_" +
Id.split("_",1)[1]`. -/
def applyMetricResult (out : Signals) (r : MetricResult) : Signals :=
  if r.values = [] then out
  else
    let key := "m_" ++ String.mk (afterFirstUnderscore r.id.data)
    if strEndsWith r.id "conn_max" || strEndsWith r.id "cpu_max" then
      setKey out key (maxList r.values)
    else
      setKey out key (r.values.sum)

/-- Fold of lines 134-141 over the metric-data response. -/
def buildSignals (results : List MetricResult) : Signals :=
  results.foldl applyMetricResult ⟨0, 0, 0, 0⟩

/-! ## Configuration and environment -/

/-- The environment-sourced configuration (lines 14-21). -/
structure Config where
  lookbackMinutes : Int
  requiredTagKey : String
  requiredTagValue : String
  cpuPctThreshold : ℚ
  iopsThreshold : ℚ
  connectionsThreshold : ℚ
  deriving DecidableEq, Repr

/-- The default configuration values of lines 14-21. -/
def defaultConfig : Config :=
  { lookbackMinutes := 20
    requiredTagKey := "IdleShutdown"
    requiredTagValue := "enabled"
    cpuPctThreshold := 1
    iopsThreshold := 0
    connectionsThreshold := 0 }

/-- A DB instance as returned by `describe_db_instances` (the fields the
code reads). -/
structure DBInstance where
  dbInstanceIdentifier : String
  dbInstanceArn : String
  dbInstanceStatus : String
  dbClusterIdentifier : Option String
  deriving DecidableEq, Repr

/-- A member entry of `DBClusterMembers`. -/
structure DBClusterMember where
  dbInstanceIdentifier : String
  isClusterWriter : Bool
  deriving DecidableEq, Repr

/-- A DB cluster as returned by `describe_db_clusters` (the fields the code
reads; `Status` is read with `.get`, hence optional). -/
structure DBCluster where
  dbClusterIdentifier : String
  dbClusterArn : String
  status : Option String
  dbClusterMembers : List DBClusterMember
  deriving DecidableEq, Repr

/-- The external collaborators (SSM, RDS, CloudWatch).  `ssmParam` is the
SSM parameter value (`none` = the fetch raises).  `metricData` is the
`MetricDataResults` of `cw.get_metric_data` for an instance id and a
lookback, `Except.error` modelling a raised exception.  Each `*Error`
field is `some message` when the corresponding RDS call raises a
`ClientError` with that message. -/
structure Env where
  cfg : Config
  ssmParam : Option String
  allInstances : List DBInstance
  allClusters : List DBCluster
  tags : String → List Tag
  metricData : String → Int → Except String (List MetricResult)
  stopInstanceError : String → Option String
  startInstanceError : String → Option String
  stopClusterError : String → Option String
  startClusterError : String → Option String

/-- Model of `get_default_idle_minutes` (lines 29-35): `int` of the SSM parameter
value, with fallback 30 if the fetch or the parse raises. -/
def get_default_idle_minutes (env : Env) : Int :=
  match env.ssmParam with
  | none => 30
  | some v =>
      match pyInt v with
      | some n => n
      | none => 30

/-- The eligibility filter of lines 49 and 68: some tag whose `Key` equals
the configured key exactly and whose lowercased `Value` equals the
configured value. -/
def tagMatches (cfg : Config) (tags : List Tag) : Bool :=
  tags.any (fun t => t.key == cfg.requiredTagKey && strLower t.value == cfg.requiredTagValue)

/-- Model of `list_tagged_db_instances` (lines 37-54): the instances whose tags pass
the eligibility filter, in catalog order. -/
def list_tagged_db_instances (env : Env) : List DBInstance :=
  env.allInstances.filter (fun dbi => tagMatches env.cfg (env.tags dbi.dbInstanceArn))

/-- Model of `list_tagged_db_clusters` (lines 56-73). -/
def list_tagged_db_clusters (env : Env) : List DBCluster :=
  env.allClusters.filter (fun dbc => tagMatches env.cfg (env.tags dbc.dbClusterArn))

/-- Model of `fetch_idle_signals_for_instance` (lines 95-141): `Except.error` when
`cw.get_metric_data` raises (nothing catches it). -/
def fetch_idle_signals_for_instance (env : Env) (db_instance_id : String)
    (lookback_mins : Int) : Except String Signals :=
  match env.metricData db_instance_id lookback_mins with
  | Except.error e => Except.error e
  | Except.ok results => Except.ok (buildSignals results)

/-- The three-way AND of lines 146-150 on a signals summary. -/
def is_idle_verdict (cfg : Config) (m : Signals) : Bool :=
  decide (m.conn_max ≤ cfg.connectionsThreshold) &&
  decide (m.read_sum + m.write_sum ≤ cfg.iopsThreshold) &&
  decide (m.cpu_max ≤ cfg.cpuPctThreshold)

/-- Model of `is_instance_idle` (lines 143-150). -/
def is_instance_idle (env : Env) (db_instance_id : String) (lookback_mins : Int) :
    Except String Bool :=
  (fetch_idle_signals_for_instance env db_instance_id lookback_mins).map
    (is_idle_verdict env.cfg)

/-- Model of `stop_instance` (lines 152-157): `(ok, message)`. -/
def stop_instance (env : Env) (id : String) : Bool × String :=
  match env.stopInstanceError id with
  | none => (true, "Stop initiated for instance " ++ id)
  | some m => (false, "Could not stop instance " ++ id ++ ": " ++ m)

/-- Model of `start_instance` (lines 159-164). -/
def start_instance (env : Env) (id : String) : Bool × String :=
  match env.startInstanceError id with
  | none => (true, "Start initiated for instance " ++ id)
  | some m => (false, "Could not start instance " ++ id ++ ": " ++ m)

/-- Model of `stop_cluster` (lines 166-171). -/
def stop_cluster (env : Env) (id : String) : Bool × String :=
  match env.stopClusterError id with
  | none => (true, "Stop initiated for cluster " ++ id)
  | some m => (false, "Could not stop cluster " ++ id ++ ": " ++ m)

/-- Model of `start_cluster` (lines 173-178). -/
def start_cluster (env : Env) (id : String) : Bool × String :=
  match env.startClusterError id with
  | none => (true, "Start initiated for cluster " ++ id)
  | some m => (false, "Could not start cluster " ++ id ++ ": " ++ m)

/-! ## Sweep (`handle_check`, lines 180-231) -/

/-- Observable collaborator calls made during a sweep or a start request. -/
inductive Event where
  | ssmCall : Event
  | fetchCall (instanceId : String) (lookbackMins : Int) : Event
  | stopInstanceCall (id : String) : Event
  | stopClusterCall (id : String) : Event
  | startInstanceCall (id : String) : Event
  | startClusterCall (id : String) : Event
  deriving DecidableEq, Repr

/-- Loop body of lines 186-202 for one tagged instance: the collaborator
calls made, and either the raised exception (`Except.error`) or the action
line appended to `actions`. -/
def processInstance (env : Env) (default_idle lookback_mins : Int)
    (dbi : DBInstance) : List Event × Except String String :=
  let dbid := dbi.dbInstanceIdentifier
  if dbi.dbInstanceStatus ≠ "available" then
    ([], Except.ok ("Skip " ++ dbid ++ ": status=" ++ dbi.dbInstanceStatus))
  else
    match dbi.dbClusterIdentifier with
    | some c => ([], Except.ok ("Skip " ++ dbid ++ ": part of cluster " ++ c))
    | none =>
        let idle_window := get_effective_idle_minutes (env.tags dbi.dbInstanceArn) default_idle
        let lb := min idle_window lookback_mins
        match is_instance_idle env dbid lb with
        | Except.error e => ([Event.fetchCall dbid lb], Except.error e)
        | Except.ok idle =>
            if idle then
              ([Event.fetchCall dbid lb, Event.stopInstanceCall dbid],
               Except.ok (stop_instance env dbid).2)
            else
              ([Event.fetchCall dbid lb],
               Except.ok ("Keep running " ++ dbid ++ ": not idle"))

/-- Lines 215-219: the first member flagged `IsClusterWriter`. -/
def findWriter : List DBClusterMember → Option String
  | [] => none
  | m :: rest => if m.isClusterWriter then some m.dbInstanceIdentifier else findWriter rest

/-- How the f-string renders the cluster `Status` (`None` when absent). -/
def statusText : Option String → String
  | none => "None"
  | some s => s

/-- Loop body of lines 205-229 for one tagged cluster.  Note `if not
writer_inst:` treats both a missing writer and an empty writer id as
absent. -/
def processCluster (env : Env) (default_idle lookback_mins : Int)
    (dbc : DBCluster) : List Event × Except String String :=
  let cid := dbc.dbClusterIdentifier
  if dbc.status ≠ some "available" ∧ dbc.status ≠ some "in-sync" then
    ([], Except.ok ("Skip cluster " ++ cid ++ ": status=" ++ statusText dbc.status))
  else
    let idle_window := get_effective_idle_minutes (env.tags dbc.dbClusterArn) default_idle
    let writer_inst := (findWriter dbc.dbClusterMembers).getD ""
    if writer_inst = "" then
      ([], Except.ok ("Skip cluster " ++ cid ++ ": no writer found"))
    else
      let lb := min idle_window lookback_mins
      match is_instance_idle env writer_inst lb with
      | Except.error e => ([Event.fetchCall writer_inst lb], Except.error e)
      | Except.ok idle =>
          if idle then
            ([Event.fetchCall writer_inst lb, Event.stopClusterCall cid],
             Except.ok (stop_cluster env cid).2)
          else
            ([Event.fetchCall writer_inst lb],
             Except.ok ("Keep running cluster " ++ cid ++ ": not idle (writer=" ++
               writer_inst ++ ")"))

/-- Run a per-resource loop body over a list: collected action lines,
collected events, and the first raised exception (which stops the loop, as
an uncaught Python exception would). -/
def runLoop {α : Type} (body : α → List Event × Except String String) :
    List α → List String × List Event × Option String
  | [] => ([], [], none)
  | x :: rest =>
      match body x with
      | (evs, Except.error e) => ([], evs, some e)
      | (evs, Except.ok line) =>
          let r := runLoop body rest
          (line :: r.1, evs ++ r.2.1, r.2.2)

/-- Result of one sweep: the `actions` list, the collaborator-call trace,
and `some e` when an uncaught exception `e` escaped `handle_check` (in
which case the caller never receives `actions`). -/
structure SweepOutcome where
  actions : List String
  events : List Event
  error : Option String
  deriving DecidableEq, Repr

/-- Lines 183-231 of `handle_check`, after the default idle window has been
resolved: the instance loop, then (if no exception) the cluster loop. -/
def sweepBody (env : Env) (default_idle : Int) : SweepOutcome :=
  let lookback_mins := env.cfg.lookbackMinutes
  let ri := runLoop (processInstance env default_idle lookback_mins)
    (list_tagged_db_instances env)
  match ri.2.2 with
  | some e => { actions := ri.1, events := ri.2.1, error := some e }
  | none =>
      let rc := runLoop (processCluster env default_idle lookback_mins)
        (list_tagged_db_clusters env)
      { actions := ri.1 ++ rc.1, events := ri.2.1 ++ rc.2.1, error := rc.2.2 }

/-- Model of `handle_check` (lines 180-231): resolve the fleet default once, then
run both loops. -/
def handle_check (env : Env) : SweepOutcome :=
  let default_idle := get_default_idle_minutes env
  let body := sweepBody env default_idle
  { actions := body.actions, events := Event.ssmCall :: body.events, error := body.error }

/-! ## Start (`handle_start`, lines 233-249) -/

/-- The HTTP-shaped response of `_http` (lines 251-256); the JSON body is
kept as the key/value pairs passed in. -/
structure HttpResponse where
  statusCode : Int
  body : List (String × String)
  deriving DecidableEq, Repr

/-- The event passed to `handle_start`: its `queryStringParameters`
(`none` when absent or `None`). -/
structure StartEvent where
  queryStringParameters : Option (List (String × String))
  deriving DecidableEq, Repr

/-- Python `params.get(k)`. -/
def getParam (params : List (String × String)) (k : String) : Option String :=
  (params.find? (fun p => p.1 = k)).map (fun p => p.2)

/-- Python `a or b` for an optional string `a`: `b` unless `a` is present
and non-empty. -/
def orElseStr (a : Option String) (b : String) : String :=
  match a with
  | some s => if s = "" then b else s
  | none => b

/-- Line 236: `params.get("resource") or params.get("db") or ""`. -/
def resolvedResource (ev : StartEvent) : String :=
  let params := ev.queryStringParameters.getD []
  orElseStr (getParam params "resource") (orElseStr (getParam params "db") "")

/-- Model of `handle_start` (lines 233-249): the response and the provider calls
made. -/
def handle_start (env : Env) (ev : StartEvent) : HttpResponse × List Event :=
  let resource := resolvedResource ev
  if resource = "" then
    ({ statusCode := 400, body := [("error", "missing resource parameter")] }, [])
  else if strStartsWith resource "cluster:" then
    let cluster_id := strDrop resource 8
    let r := start_cluster env cluster_id
    ({ statusCode := if r.1 then 200 else 400,
       body := [("message", r.2), ("resource", cluster_id), ("type", "cluster")] },
     [Event.startClusterCall cluster_id])
  else
    let r := start_instance env resource
    ({ statusCode := if r.1 then 200 else 400,
       body := [("message", r.2), ("resource", resource), ("type", "instance")] },
     [Event.startInstanceCall resource])

/-- A baseline environment: default configuration, one eligible tag on
every resource, empty fleet, all collaborator calls succeeding. -/
def envBase : Env :=
  { cfg := defaultConfig
    ssmParam := some "30"
    allInstances := []
    allClusters := []
    tags := fun _ => [⟨"IdleShutdown", "enabled"⟩]
    metricData := fun _ _ => Except.ok []
    stopInstanceError := fun _ => none
    startInstanceError := fun _ => none
    stopClusterError := fun _ => none
    startClusterError := fun _ => none }

/-- A single available standalone instance, used by several witnesses. -/
def dbi1 : DBInstance := ⟨"db1", "arn:db1", "available", none⟩

/-- The base environment with the one instance `db1`. -/
def env1 : Env := { envBase with allInstances := [dbi1] }

/-- Like `env1` but with the SSM default-idle parameter unavailable. -/
def envNoSsm : Env := { envBase with ssmParam := none, allInstances := [dbi1] }

/-! ## Helper lemmas -/

theorem str_data_append (a b : String) : (a ++ b).data = a.data ++ b.data := by
  cases a; cases b; rfl

theorem str_append_left_cancel {a b c : String} (h : a ++ b = a ++ c) : b = c := by
  cases a with
  | mk la =>
    cases b with
    | mk lb =>
      cases c with
      | mk lc =>
        injection h with h'
        exact congrArg String.mk (List.append_cancel_left h')

/-- The no-writer skip line differs from the bad-status skip line for every
cluster id and every status string. -/
theorem no_writer_msg_ne (cid s : String) :
    "Skip cluster " ++ cid ++ ": no writer found" ≠
    "Skip cluster " ++ cid ++ ": status=" ++ s := by
  intro h
  have h1 : ("Skip cluster " ++ cid) ++ ": no writer found" =
      ("Skip cluster " ++ cid) ++ (": status=" ++ s) := by
    rw [← String.append_assoc]
    exact h
  have h2 := str_append_left_cancel h1
  have h3 : (": no writer found" : String).data = (": status=" : String).data ++ s.data := by
    rw [h2, str_data_append]
  have h6 : (": no writer found" : String).data[2]? = some 'n' := by decide
  rw [h3] at h6
  rw [List.getElem?_append_left (by decide)] at h6
  exact absurd h6 (by decide)

/-- An event in the trace of a loop comes from the loop body at one of the
list elements. -/
theorem runLoop_event_mem {α : Type} (body : α → List Event × Except String String)
    (xs : List α) (e : Event) (he : e ∈ (runLoop body xs).2.1) :
    ∃ x ∈ xs, e ∈ (body x).1 := by
  induction xs with
  | nil => simp [runLoop] at he
  | cons x rest ih =>
    cases hb : body x with
    | mk evs r =>
      cases r with
      | error err =>
        rw [runLoop, hb] at he
        exact ⟨x, List.mem_cons_self x rest, by rw [hb]; exact he⟩
      | ok line =>
        rw [runLoop, hb] at he
        rcases List.mem_append.mp he with h | h
        · exact ⟨x, List.mem_cons_self x rest, by rw [hb]; exact h⟩
        · obtain ⟨y, hy, hey⟩ := ih h
          exact ⟨y, List.mem_cons_of_mem x hy, hey⟩

/-! ## Claims -/

/-- C1, counterexample: the claim says an `IdleMinutes` override of `"0"`
(not a positive integer) falls back to the fleet default 30; the code
returns the parsed 0, and likewise returns a parsed negative value. -/
theorem effective_idle_minutes_zero_counterexample :
    get_effective_idle_minutes [⟨"IdleMinutes", "0"⟩] 30 = 0 ∧
    get_effective_idle_minutes [⟨"IdleMinutes", "0"⟩] 30 ≠ 30 ∧
    get_effective_idle_minutes [⟨"IdleMinutes", "-5"⟩] 30 = -5 := by
  decide

/-- C1 (amended): for every tag mapping and fleet default,
`get_effective_idle_minutes` returns the parsed value of the `IdleMinutes`
tag whenever that value is non-empty and parses as an integer — including
zero and negative integers — and returns the fleet default when the tag is
absent, empty, or non-numeric; it never fails on any input (it is a total
function). -/
theorem effective_idle_minutes_override_semantics (tags : List Tag) (d : Int) :
    (get_tag_value tags "IdleMinutes" = none → get_effective_idle_minutes tags d = d) ∧
    (get_tag_value tags "IdleMinutes" = some "" → get_effective_idle_minutes tags d = d) ∧
    (∀ s, get_tag_value tags "IdleMinutes" = some s → pyInt s = none →
      get_effective_idle_minutes tags d = d) ∧
    (∀ s n, get_tag_value tags "IdleMinutes" = some s → s ≠ "" → pyInt s = some n →
      get_effective_idle_minutes tags d = n) := by
  refine ⟨?_, ?_, ?_, ?_⟩
  · intro h
    simp [get_effective_idle_minutes, h]
  · intro h
    simp [get_effective_idle_minutes, h]
  · intro s hs hp
    unfold get_effective_idle_minutes
    rw [hs]
    by_cases he : s = ""
    · simp [he]
    · simp [he, hp]
  · intro s n hs hne hp
    unfold get_effective_idle_minutes
    rw [hs]
    simp [hne, hp]

/-- C1 witness: a parseable positive override is returned. -/
theorem effective_idle_minutes_override_semantics_witness :
    get_effective_idle_minutes [⟨"IdleMinutes", "45"⟩] 30 = 45 :=
  (effective_idle_minutes_override_semantics [⟨"IdleMinutes", "45"⟩] 30).2.2.2
    "45" 45 rfl (by decide) (by decide)

/-- C3: the idle verdict is true iff all three threshold conditions hold
(with `≤`, so exact equality with a threshold counts as idle). -/
theorem is_idle_verdict_iff (cfg : Config) (m : Signals) :
    is_idle_verdict cfg m = true ↔
      (m.conn_max ≤ cfg.connectionsThreshold ∧
       m.read_sum + m.write_sum ≤ cfg.iopsThreshold ∧
       m.cpu_max ≤ cfg.cpuPctThreshold) := by
  simp [is_idle_verdict, and_assoc]

/-- C10: eligibility matching compares the tag key exactly (case-sensitive)
and the lowercased tag value against the configured value, so with the
default configuration a value of `Enabled` or `ENABLED` is eligible while a
differently-cased key is not; `list_tagged_db_instances` keeps exactly the
catalog instances whose tags match. -/
theorem eligibility_tag_matching :
    (∀ (cfg : Config) (ts : List Tag),
      tagMatches cfg ts = true ↔
        ∃ t ∈ ts, t.key = cfg.requiredTagKey ∧ strLower t.value = cfg.requiredTagValue) ∧
    tagMatches defaultConfig [⟨"IdleShutdown", "Enabled"⟩] = true ∧
    tagMatches defaultConfig [⟨"IdleShutdown", "ENABLED"⟩] = true ∧
    tagMatches defaultConfig [⟨"idleshutdown", "enabled"⟩] = false ∧
    (∀ (env : Env) (dbi : DBInstance),
      dbi ∈ list_tagged_db_instances env ↔
        dbi ∈ env.allInstances ∧ tagMatches env.cfg (env.tags dbi.dbInstanceArn) = true) := by
  refine ⟨?_, by decide, by decide, by decide, ?_⟩
  · intro cfg ts
    simp [tagMatches, List.any_eq_true]
  · intro env dbi
    simp [list_tagged_db_instances, List.mem_filter]

/-- C5: a standalone instance whose status is not `available`, and a
cluster whose status is outside the accepted set, each produce exactly the
status-skip outcome line with an empty call trace — no metric fetch and no
stop call. -/
theorem skip_unavailable_status (env : Env) (d l : Int) :
    (∀ dbi : DBInstance, dbi.dbInstanceStatus ≠ "available" →
      processInstance env d l dbi =
        ([], Except.ok ("Skip " ++ dbi.dbInstanceIdentifier ++ ": status=" ++
          dbi.dbInstanceStatus))) ∧
    (∀ dbc : DBCluster, dbc.status ≠ some "available" → dbc.status ≠ some "in-sync" →
      processCluster env d l dbc =
        ([], Except.ok ("Skip cluster " ++ dbc.dbClusterIdentifier ++ ": status=" ++
          statusText dbc.status))) := by
  constructor
  · intro dbi h
    simp [processInstance, h]
  · intro dbc h1 h2
    simp [processCluster, h1, h2]

/-- C5 witness: a stopped instance and a stopping cluster are skipped with
no collaborator calls. -/
theorem skip_unavailable_status_witness :
    processInstance envBase 30 20 ⟨"db9", "arn:db9", "stopped", none⟩ =
      ([], Except.ok "Skip db9: status=stopped") ∧
    processCluster envBase 30 20 ⟨"c9", "arn:c9", some "stopping", []⟩ =
      ([], Except.ok "Skip cluster c9: status=stopping") := by
  have h1 := (skip_unavailable_status envBase 30 20).1
    ⟨"db9", "arn:db9", "stopped", none⟩ (by decide)
  have h2 := (skip_unavailable_status envBase 30 20).2
    ⟨"c9", "arn:c9", some "stopping", []⟩ (by decide) (by decide)
  rw [h1, h2]
  exact ⟨rfl, rfl⟩

/-- C6: an available instance that is a member of a cluster is skipped by
the standalone pass with an empty call trace — its metrics are never
fetched and no stop is issued — no matter what the metric source would
report. -/
theorem skip_cluster_member_instance (env : Env) (d l : Int) (dbi : DBInstance)
    (c : String) (h1 : dbi.dbInstanceStatus = "available")
    (h2 : dbi.dbClusterIdentifier = some c) :
    processInstance env d l dbi =
      ([], Except.ok ("Skip " ++ dbi.dbInstanceIdentifier ++ ": part of cluster " ++ c)) := by
  simp [processInstance, h1, h2]

unseal Rat.add in
/-- C6 witness: a cluster-member instance is skipped even though its
metrics (empty datapoints, hence all-zero signals) would classify it as
idle. -/
theorem skip_cluster_member_instance_witness :
    processInstance envBase 30 20 ⟨"db2", "arn:db2", "available", some "c1"⟩ =
      ([], Except.ok "Skip db2: part of cluster c1") ∧
    is_idle_verdict envBase.cfg (buildSignals []) = true := by
  have h := skip_cluster_member_instance envBase 30 20
    ⟨"db2", "arn:db2", "available", some "c1"⟩ "c1" rfl rfl
  rw [h]
  exact ⟨rfl, by decide⟩

/-- C7: an eligible cluster (accepted status) with no writer member — or a
writer with an empty id, which the code treats the same — produces exactly
the no-writer skip line with an empty call trace (no metric fetch, no stop
call), and that skip reason differs from the status-skip reason for every
status string. -/
theorem cluster_no_writer_skip (env : Env) (d l : Int) (dbc : DBCluster)
    (hstat : dbc.status = some "available" ∨ dbc.status = some "in-sync")
    (hw : (findWriter dbc.dbClusterMembers).getD "" = "") :
    processCluster env d l dbc =
      ([], Except.ok ("Skip cluster " ++ dbc.dbClusterIdentifier ++ ": no writer found")) ∧
    (∀ s, ("Skip cluster " ++ dbc.dbClusterIdentifier ++ ": no writer found") ≠
      ("Skip cluster " ++ dbc.dbClusterIdentifier ++ ": status=" ++ s)) := by
  constructor
  · rcases hstat with h | h
    · simp [processCluster, h, hw]
    · simp [processCluster, h, hw]
  · intro s
    exact no_writer_msg_ne dbc.dbClusterIdentifier s

/-- C7 witness: an available cluster whose only member is not a writer is
skipped with the distinct no-writer reason and no calls. -/
theorem cluster_no_writer_skip_witness :
    processCluster envBase 30 20 ⟨"c0", "arn:c0", some "available", [⟨"m1", false⟩]⟩ =
      ([], Except.ok "Skip cluster c0: no writer found") ∧
    ("Skip cluster c0: no writer found" : String) ≠ "Skip cluster c0: status=available" := by
  have h := cluster_no_writer_skip envBase 30 20
    ⟨"c0", "arn:c0", some "available", [⟨"m1", false⟩]⟩ (Or.inl rfl) (by decide)
  constructor
  · rw [h.1]
    rfl
  · intro he
    exact h.2 "available" (by exact he)

/-- Every fetch event of the instance loop body uses lookback
`min(effective idle window, lookback cap)`. -/
theorem processInstance_fetch_lookback (env : Env) (d l : Int) (dbi : DBInstance)
    (id : String) (lb : Int)
    (h : Event.fetchCall id lb ∈ (processInstance env d l dbi).1) :
    lb = min (get_effective_idle_minutes (env.tags dbi.dbInstanceArn) d) l := by
  simp only [processInstance] at h
  split at h
  · simp at h
  · split at h
    · simp at h
    · split at h
      · simp at h
        exact h.2
      · split at h
        · simp at h
          exact h.2
        · simp at h
          exact h.2

/-- Every fetch event of the cluster loop body uses lookback
`min(effective idle window, lookback cap)`. -/
theorem processCluster_fetch_lookback (env : Env) (d l : Int) (dbc : DBCluster)
    (id : String) (lb : Int)
    (h : Event.fetchCall id lb ∈ (processCluster env d l dbc).1) :
    lb = min (get_effective_idle_minutes (env.tags dbc.dbClusterArn) d) l := by
  simp only [processCluster] at h
  split at h
  · simp at h
  · split at h
    · simp at h
    · split at h
      · simp at h
        exact h.2
      · split at h
        · simp at h
          exact h.2
        · simp at h
          exact h.2

/-- C4: every metric fetch issued while processing an instance or a
cluster uses the lookback `min(effective idle window, global lookback)`,
computed from that resource's own tags; consequently every fetch recorded
during a whole sweep has a lookback of at most the configured global
lookback cap. -/
theorem lookback_window_capped (env : Env) (d l : Int) :
    (∀ (dbi : DBInstance) (id : String) (lb : Int),
      Event.fetchCall id lb ∈ (processInstance env d l dbi).1 →
        lb = min (get_effective_idle_minutes (env.tags dbi.dbInstanceArn) d) l) ∧
    (∀ (dbc : DBCluster) (id : String) (lb : Int),
      Event.fetchCall id lb ∈ (processCluster env d l dbc).1 →
        lb = min (get_effective_idle_minutes (env.tags dbc.dbClusterArn) d) l) ∧
    (∀ (id : String) (lb : Int),
      Event.fetchCall id lb ∈ (handle_check env).events →
        lb ≤ env.cfg.lookbackMinutes) := by
  refine ⟨fun dbi id lb h => processInstance_fetch_lookback env d l dbi id lb h,
    fun dbc id lb h => processCluster_fetch_lookback env d l dbc id lb h, ?_⟩
  intro id lb h
  have hbody : Event.fetchCall id lb ∈
      (sweepBody env (get_default_idle_minutes env)).events := by
    have hev : (handle_check env).events =
        Event.ssmCall :: (sweepBody env (get_default_idle_minutes env)).events := rfl
    rw [hev] at h
    rcases List.mem_cons.mp h with h | h
    · exact absurd h (by simp)
    · exact h
  simp only [sweepBody] at hbody
  split at hbody
  · obtain ⟨x, _, hx⟩ := runLoop_event_mem _ _ _ hbody
    rw [processInstance_fetch_lookback env _ _ x id lb hx]
    exact min_le_right _ _
  · rcases List.mem_append.mp hbody with hmem | hmem
    · obtain ⟨x, _, hx⟩ := runLoop_event_mem _ _ _ hmem
      rw [processInstance_fetch_lookback env _ _ x id lb hx]
      exact min_le_right _ _
    · obtain ⟨x, _, hx⟩ := runLoop_event_mem _ _ _ hmem
      rw [processCluster_fetch_lookback env _ _ x id lb hx]
      exact min_le_right _ _

unseal Rat.add in
/-- C4 witness: in the one-instance sweep the recorded fetch lookback 20
equals `min(idle window 30, cap 20)` and is at most the cap. -/
theorem lookback_window_capped_witness :
    (20 : Int) = min (get_effective_idle_minutes (env1.tags dbi1.dbInstanceArn) 30) 20 ∧
    (20 : Int) ≤ env1.cfg.lookbackMinutes :=
  ⟨(lookback_window_capped env1 30 20).1 dbi1 "db1" 20 (by decide),
   (lookback_window_capped env1 30 20).2.2 "db1" 20 (by decide)⟩

/-- The instance loop body never calls SSM. -/
theorem processInstance_no_ssm (env : Env) (d l : Int) (dbi : DBInstance) :
    Event.ssmCall ∉ (processInstance env d l dbi).1 := by
  intro h
  simp only [processInstance] at h
  split at h
  · simp at h
  · split at h
    · simp at h
    · split at h
      · simp at h
      · split at h
        · simp at h
        · simp at h

/-- The cluster loop body never calls SSM. -/
theorem processCluster_no_ssm (env : Env) (d l : Int) (dbc : DBCluster) :
    Event.ssmCall ∉ (processCluster env d l dbc).1 := by
  intro h
  simp only [processCluster] at h
  split at h
  · simp at h
  · split at h
    · simp at h
    · split at h
      · simp at h
      · split at h
        · simp at h
        · simp at h

/-- The per-resource loops never call SSM. -/
theorem sweepBody_no_ssm (env : Env) (d : Int) :
    Event.ssmCall ∉ (sweepBody env d).events := by
  intro h
  simp only [sweepBody] at h
  split at h
  · obtain ⟨x, _, hx⟩ := runLoop_event_mem _ _ _ h
    exact processInstance_no_ssm env _ _ x hx
  · rcases List.mem_append.mp h with hm | hm
    · obtain ⟨x, _, hx⟩ := runLoop_event_mem _ _ _ hm
      exact processInstance_no_ssm env _ _ x hx
    · obtain ⟨x, _, hx⟩ := runLoop_event_mem _ _ _ hm
      exact processCluster_no_ssm env _ _ x hx

/-- C8: every sweep calls SSM exactly once, as its first collaborator call
(before any per-resource evaluation); and when the SSM fetch fails, the
default idle window becomes 30 and the sweep behaves exactly as if the
parameter had held `"30"` — the failure never aborts the sweep. -/
theorem default_idle_resolved_once (env : Env) :
    (handle_check env).events.head? = some Event.ssmCall ∧
    (handle_check env).events.count Event.ssmCall = 1 ∧
    (env.ssmParam = none →
      get_default_idle_minutes env = 30 ∧
      handle_check env = handle_check { env with ssmParam := some "30" }) := by
  refine ⟨rfl, ?_, ?_⟩
  · have hev : (handle_check env).events =
        Event.ssmCall :: (sweepBody env (get_default_idle_minutes env)).events := rfl
    rw [hev, List.count_cons_self,
      List.count_eq_zero.mpr (sweepBody_no_ssm env (get_default_idle_minutes env))]
  · intro hs
    have h1 : get_default_idle_minutes env = 30 := by
      unfold get_default_idle_minutes
      rw [hs]
    have h2 : get_default_idle_minutes { env with ssmParam := some "30" } = 30 := rfl
    have h3 : sweepBody { env with ssmParam := some "30" } 30 = sweepBody env 30 := rfl
    refine ⟨h1, ?_⟩
    simp only [handle_check, h1, h2, h3]

/-- C8 witness: with an unavailable SSM parameter the one-instance sweep
still runs, with SSM called first, and equals the sweep under an explicit
`"30"`. -/
theorem default_idle_resolved_once_witness :
    (handle_check envNoSsm).events.head? = some Event.ssmCall ∧
    get_default_idle_minutes envNoSsm = 30 ∧
    handle_check envNoSsm = handle_check { envNoSsm with ssmParam := some "30" } := by
  have h := default_idle_resolved_once envNoSsm
  exact ⟨h.1, (h.2.2 rfl).1, (h.2.2 rfl).2⟩

/-- When every metric fetch succeeds, the instance loop body returns an
action line (stop errors included — they only change the line's text). -/
theorem processInstance_ok (env : Env) (d l : Int) (dbi : DBInstance)
    (hf : ∀ id lb, ∃ r, env.metricData id lb = Except.ok r) :
    ∃ line, (processInstance env d l dbi).2 = Except.ok line := by
  by_cases h1 : dbi.dbInstanceStatus ≠ "available"
  · exact ⟨"Skip " ++ dbi.dbInstanceIdentifier ++ ": status=" ++ dbi.dbInstanceStatus,
      by simp [processInstance, h1]⟩
  · cases h2 : dbi.dbClusterIdentifier with
    | some c =>
        exact ⟨"Skip " ++ dbi.dbInstanceIdentifier ++ ": part of cluster " ++ c,
          by simp [processInstance, h1, h2]⟩
    | none =>
      obtain ⟨r, hr⟩ := hf dbi.dbInstanceIdentifier
        (min (get_effective_idle_minutes (env.tags dbi.dbInstanceArn) d) l)
      have hi : is_instance_idle env dbi.dbInstanceIdentifier
          (min (get_effective_idle_minutes (env.tags dbi.dbInstanceArn) d) l) =
          Except.ok (is_idle_verdict env.cfg (buildSignals r)) := by
        unfold is_instance_idle fetch_idle_signals_for_instance
        rw [hr]
        rfl
      simp only [processInstance, if_neg h1, h2, hi]
      split
      · exact ⟨_, rfl⟩
      · exact ⟨_, rfl⟩

/-- When every metric fetch succeeds, the cluster loop body returns an
action line. -/
theorem processCluster_ok (env : Env) (d l : Int) (dbc : DBCluster)
    (hf : ∀ id lb, ∃ r, env.metricData id lb = Except.ok r) :
    ∃ line, (processCluster env d l dbc).2 = Except.ok line := by
  by_cases h1 : dbc.status ≠ some "available" ∧ dbc.status ≠ some "in-sync"
  · exact ⟨"Skip cluster " ++ dbc.dbClusterIdentifier ++ ": status=" ++ statusText dbc.status,
      by simp [processCluster, h1]⟩
  · by_cases h2 : (findWriter dbc.dbClusterMembers).getD "" = ""
    · exact ⟨"Skip cluster " ++ dbc.dbClusterIdentifier ++ ": no writer found",
        by simp [processCluster, h1, h2]⟩
    · obtain ⟨r, hr⟩ := hf ((findWriter dbc.dbClusterMembers).getD "")
        (min (get_effective_idle_minutes (env.tags dbc.dbClusterArn) d) l)
      have hi : is_instance_idle env ((findWriter dbc.dbClusterMembers).getD "")
          (min (get_effective_idle_minutes (env.tags dbc.dbClusterArn) d) l) =
          Except.ok (is_idle_verdict env.cfg (buildSignals r)) := by
        unfold is_instance_idle fetch_idle_signals_for_instance
        rw [hr]
        rfl
      simp only [processCluster, if_neg h1, if_neg h2, hi]
      split
      · exact ⟨_, rfl⟩
      · exact ⟨_, rfl⟩

/-- A loop whose body always returns a line raises nothing and yields one
line per element. -/
theorem runLoop_ok_all {α : Type} (body : α → List Event × Except String String)
    (xs : List α) (h : ∀ x ∈ xs, ∃ line, (body x).2 = Except.ok line) :
    (runLoop body xs).2.2 = none ∧ (runLoop body xs).1.length = xs.length := by
  induction xs with
  | nil => exact ⟨rfl, rfl⟩
  | cons x rest ih =>
    obtain ⟨line, hx⟩ := h x (List.mem_cons_self x rest)
    have hrest := ih (fun y hy => h y (List.mem_cons_of_mem x hy))
    cases hb : body x with
    | mk evs r =>
      rw [hb] at hx
      cases r with
      | error e => simp at hx
      | ok line2 =>
        rw [runLoop, hb]
        exact ⟨hrest.1, by simp [hrest.2]⟩

/-- C2 (amended): a stop failure is converted into a recorded per-resource
outcome line and never aborts the sweep; whenever every metric fetch
succeeds, the sweep finishes with no escaped exception and one outcome
line per discovered resource.  (A metric-fetch failure, by contrast,
escapes the sweep — see the counterexample.) -/
theorem sweep_complete_when_fetch_ok (env : Env)
    (hf : ∀ id lb, ∃ r, env.metricData id lb = Except.ok r) :
    (handle_check env).error = none ∧
    (handle_check env).actions.length =
      (list_tagged_db_instances env).length + (list_tagged_db_clusters env).length := by
  have hi := runLoop_ok_all
    (processInstance env (get_default_idle_minutes env) env.cfg.lookbackMinutes)
    (list_tagged_db_instances env)
    (fun x _ => processInstance_ok env _ _ x hf)
  have hc := runLoop_ok_all
    (processCluster env (get_default_idle_minutes env) env.cfg.lookbackMinutes)
    (list_tagged_db_clusters env)
    (fun x _ => processCluster_ok env _ _ x hf)
  have herr : (handle_check env).error =
      (sweepBody env (get_default_idle_minutes env)).error := rfl
  have hact : (handle_check env).actions =
      (sweepBody env (get_default_idle_minutes env)).actions := rfl
  rw [herr, hact]
  simp only [sweepBody]
  rw [hi.1]
  simp only []
  exact ⟨hc.1, by simp [hi.2, hc.2]⟩

/-- Two eligible available instances; the metric fetch for the first one
raises. -/
def envFetchErr : Env :=
  { envBase with
    allInstances := [⟨"i1", "arn:i1", "available", none⟩, ⟨"i2", "arn:i2", "available", none⟩]
    metricData := fun id _ =>
      if id = "i1" then Except.error "metrics unavailable" else Except.ok [] }

unseal Rat.add in
/-- C2, counterexample: with two discovered resources and a metric-fetch
failure on the first, the exception escapes `handle_check` (no outcome
list is returned), no outcome line is recorded, and the second resource is
never evaluated — the only calls are the SSM fetch and the failing metric
fetch. -/
theorem sweep_aborts_on_metric_error :
    (handle_check envFetchErr).error = some "metrics unavailable" ∧
    (handle_check envFetchErr).actions = [] ∧
    (list_tagged_db_instances envFetchErr).length = 2 ∧
    (handle_check envFetchErr).events = [Event.ssmCall, Event.fetchCall "i1" 20] := by
  decide

/-- One eligible idle instance whose stop call fails with a provider
error. -/
def envStopErr : Env :=
  { envBase with
    allInstances := [⟨"i1", "arn:i1", "available", none⟩]
    stopInstanceError := fun _ => some "boom" }

unseal Rat.add in
/-- C2 witness: a stop failure is recorded as that resource's outcome line
and the sweep completes normally with one line for its one resource. -/
theorem sweep_complete_when_fetch_ok_witness :
    (handle_check envStopErr).error = none ∧
    (handle_check envStopErr).actions.length = 1 ∧
    (handle_check envStopErr).actions = ["Could not stop instance i1: boom"] := by
  have h := sweep_complete_when_fetch_ok envStopErr (fun id lb => ⟨[], rfl⟩)
  refine ⟨h.1, ?_, by decide⟩
  rw [h.2]
  decide

/-- C9: a start request whose resolved resource reference is empty gets the
400 request-validation response and triggers no provider call; a non-empty
reference with the `cluster:` prefix triggers exactly one cluster-start
call on the suffix, and one without the prefix exactly one instance-start
call; no branch ever fetches metrics (idleness is never evaluated). -/
theorem handle_start_routing (env : Env) (ev : StartEvent) :
    (resolvedResource ev = "" →
      handle_start env ev =
        ({ statusCode := 400, body := [("error", "missing resource parameter")] }, [])) ∧
    (resolvedResource ev ≠ "" → strStartsWith (resolvedResource ev) "cluster:" = true →
      (handle_start env ev).2 = [Event.startClusterCall (strDrop (resolvedResource ev) 8)]) ∧
    (resolvedResource ev ≠ "" → strStartsWith (resolvedResource ev) "cluster:" = false →
      (handle_start env ev).2 = [Event.startInstanceCall (resolvedResource ev)]) ∧
    (∀ (id : String) (lb : Int), Event.fetchCall id lb ∉ (handle_start env ev).2) := by
  refine ⟨?_, ?_, ?_, ?_⟩
  · intro h
    simp [handle_start, h]
  · intro h1 h2
    simp [handle_start, h1, h2]
  · intro h1 h2
    simp [handle_start, h1, h2]
  · intro id lb
    simp only [handle_start]
    split
    · simp
    · split
      · simp
      · simp

/-- C9 witness: an empty `resource` parameter yields the 400 validation
response with no provider call; `cluster:c1` routes to cluster-start; a
bare `db` parameter routes to instance-start. -/
theorem handle_start_routing_witness :
    handle_start envBase ⟨some [("resource", "")]⟩ =
      ({ statusCode := 400, body := [("error", "missing resource parameter")] }, []) ∧
    (handle_start envBase ⟨some [("resource", "cluster:c1")]⟩).2 =
      [Event.startClusterCall "c1"] ∧
    (handle_start envBase ⟨some [("db", "db1")]⟩).2 =
      [Event.startInstanceCall "db1"] := by
  have h1 := (handle_start_routing envBase ⟨some [("resource", "")]⟩).1 (by decide)
  have h2 := (handle_start_routing envBase ⟨some [("resource", "cluster:c1")]⟩).2.1
    (by decide) (by decide)
  have h3 := (handle_start_routing envBase ⟨some [("db", "db1")]⟩).2.2.1
    (by decide) (by decide)
  refine ⟨h1, ?_, ?_⟩
  · rw [h2]
    decide
  · rw [h3]
    decide
end RdsIdleShutdown
